import Mathlib

/- Shallow embedding of the portfolio backend's analytics and contact routers
   (api_backend/routers/stats.py and api_backend/routers/contact.py), together
   with proofs of the behavioural properties stated in the specification. -/

namespace Portfolio

/-! ## SHA-256, embedded for `hash_ip`

`hash_ip` in stats.py is `hashlib.sha256(ip.encode()).hexdigest()[:16]`.
We embed SHA-256 over byte lists (bytes as `Nat < 256`), UTF-8 encoding of the
input string, and hex rendering of the digest. -/

/-- Reduce a natural number to a 32-bit word. -/
def w32 (n : Nat) : Nat := n % 4294967296

/-- Right rotation of a 32-bit word (input assumed `< 2^32`). -/
def rotr (x n : Nat) : Nat := w32 ((x >>> n) ||| (x <<< (32 - n)))

/-- SHA-256 big sigma 0. -/
def bsig0 (x : Nat) : Nat := (rotr x 2) ^^^ (rotr x 13) ^^^ (rotr x 22)

/-- SHA-256 big sigma 1. -/
def bsig1 (x : Nat) : Nat := (rotr x 6) ^^^ (rotr x 11) ^^^ (rotr x 25)

/-- SHA-256 small sigma 0. -/
def ssig0 (x : Nat) : Nat := (rotr x 7) ^^^ (rotr x 18) ^^^ (x >>> 3)

/-- SHA-256 small sigma 1. -/
def ssig1 (x : Nat) : Nat := (rotr x 17) ^^^ (rotr x 19) ^^^ (x >>> 10)

/-- SHA-256 choice function. -/
def ch (x y z : Nat) : Nat := (x &&& y) ^^^ ((x ^^^ 4294967295) &&& z)

/-- SHA-256 majority function. -/
def maj (x y z : Nat) : Nat := (x &&& y) ^^^ (x &&& z) ^^^ (y &&& z)

/-- The 64 SHA-256 round constants (FIPS 180-4, written in decimal). -/
def roundK : List Nat :=
  [1116352408, 1899447441, 3049323471, 3921009573, 961987163, 1508970993,
   2453635748, 2870763221, 3624381080, 310598401, 607225278, 1426881987,
   1925078388, 2162078206, 2614888103, 3248222580, 3835390401, 4022224774,
   264347078, 604807628, 770255983, 1249150122, 1555081692, 1996064986,
   2554220882, 2821834349, 2952996808, 3210313671, 3336571891, 3584528711,
   113926993, 338241895, 666307205, 773529912, 1294757372, 1396182291,
   1695183700, 1986661051, 2177026350, 2456956037, 2730485921, 2820302411,
   3259730800, 3345764771, 3516065817, 3600352804, 4094571909, 275423344,
   430227734, 506948616, 659060556, 883997877, 958139571, 1322822218,
   1537002063, 1747873779, 1955562222, 2024104815, 2227730452, 2361852424,
   2428436474, 2756734187, 3204031479, 3329325298]

/-- The eight-word SHA-256 internal state. -/
structure Hash8 where
  a : Nat
  b : Nat
  c : Nat
  d : Nat
  e : Nat
  f : Nat
  g : Nat
  h : Nat

/-- The SHA-256 initial hash value (FIPS 180-4, written in decimal). -/
def initHash : Hash8 :=
  ⟨1779033703, 3144134277, 1013904242, 2773480762, 1359893119, 2600822924, 528734635, 1541459225⟩

/-- One SHA-256 compression round. -/
def shaRound (s : Hash8) (ki wi : Nat) : Hash8 :=
  let t1 := w32 (s.h + bsig1 s.e + ch s.e s.f s.g + ki + wi)
  let t2 := w32 (bsig0 s.a + maj s.a s.b s.c)
  ⟨w32 (t1 + t2), s.a, s.b, s.c, w32 (s.d + t1), s.e, s.f, s.g⟩

/-- Big-endian 32-bit word from a list of bytes. -/
def bytesToWord (bs : List Nat) : Nat := bs.foldl (fun acc b => acc * 256 + b) 0

/-- The sixteen 32-bit words of a 64-byte block. -/
def wordsOfBlock (block : List Nat) : List Nat :=
  (List.range 16).map (fun i => bytesToWord ((block.drop (4 * i)).take 4))

/-- Extend sixteen schedule words to sixty-four. -/
def extendSchedule (ws : List Nat) : List Nat :=
  (List.range 48).foldl (fun acc _ =>
    let n := acc.length
    acc ++ [w32 (ssig1 (acc.getD (n - 2) 0) + acc.getD (n - 7) 0 +
                 ssig0 (acc.getD (n - 15) 0) + acc.getD (n - 16) 0)]) ws

/-- Compress one 64-byte block into the running hash state. -/
def compress (h0 : Hash8) (block : List Nat) : Hash8 :=
  let w := extendSchedule (wordsOfBlock block)
  let s := (roundK.zip w).foldl (fun s kw => shaRound s kw.1 kw.2) h0
  ⟨w32 (h0.a + s.a), w32 (h0.b + s.b), w32 (h0.c + s.c), w32 (h0.d + s.d),
   w32 (h0.e + s.e), w32 (h0.f + s.f), w32 (h0.g + s.g), w32 (h0.h + s.h)⟩

/-- Big-endian 8-byte rendering of a length in bits. -/
def be8 (n : Nat) : List Nat :=
  [(n >>> 56) % 256, (n >>> 48) % 256, (n >>> 40) % 256, (n >>> 32) % 256,
   (n >>> 24) % 256, (n >>> 16) % 256, (n >>> 8) % 256, n % 256]

/-- Big-endian 4-byte rendering of a 32-bit word. -/
def be4 (n : Nat) : List Nat :=
  [(n >>> 24) % 256, (n >>> 16) % 256, (n >>> 8) % 256, n % 256]

/-- SHA-256 message padding: 0x80, zeros to 56 mod 64, then the bit length. -/
def padMessage (msg : List Nat) : List Nat :=
  msg ++ [128] ++ List.replicate ((119 - msg.length % 64) % 64) 0 ++ be8 (msg.length * 8)

/-- Split a byte list into 64-byte blocks. -/
def toBlocks (l : List Nat) : List (List Nat) :=
  if h : l = [] then []
  else l.take 64 :: toBlocks (l.drop 64)
termination_by l.length
decreasing_by
  have hl : 0 < l.length := List.length_pos.mpr h
  simp only [List.length_drop]
  omega

/-- Final hash state of a byte message. -/
def hashBlocks (msg : List Nat) : Hash8 :=
  (toBlocks (padMessage msg)).foldl compress initHash

/-- Serialize the final state to the 32 digest bytes. -/
def digestBytes (h : Hash8) : List Nat :=
  be4 h.a ++ be4 h.b ++ be4 h.c ++ be4 h.d ++ be4 h.e ++ be4 h.f ++ be4 h.g ++ be4 h.h

/-- SHA-256 digest (32 bytes) of a byte message. -/
def sha256 (msg : List Nat) : List Nat := digestBytes (hashBlocks msg)

/-- The sixteen lowercase hex digits. -/
def hexChars : List Char := "0123456789abcdef".data

/-- Two hex characters of one byte. -/
def hexByte (b : Nat) : List Char :=
  [hexChars.getD ((b >>> 4) % 16) '0', hexChars.getD (b % 16) '0']

/-- Lowercase hex rendering of a byte list (Python's `hexdigest`). -/
def hexdigest (bytes : List Nat) : List Char := (bytes.map hexByte).flatten

/-- UTF-8 bytes of one character (Python's `str.encode`). -/
def utf8Char (c : Char) : List Nat :=
  let n := c.toNat
  if n < 128 then [n]
  else if n < 2048 then [192 + (n >>> 6), 128 + (n % 64)]
  else if n < 65536 then [224 + (n >>> 12), 128 + ((n >>> 6) % 64), 128 + (n % 64)]
  else [240 + (n >>> 18), 128 + ((n >>> 12) % 64), 128 + ((n >>> 6) % 64), 128 + (n % 64)]

/-- UTF-8 encoding of a string. -/
def utf8Encode (s : String) : List Nat := (s.data.map utf8Char).flatten

/-- `hash_ip` from stats.py: `hashlib.sha256(ip.encode()).hexdigest()[:16]`. -/
def hash_ip (ip : String) : String :=
  String.mk ((hexdigest (sha256 (utf8Encode ip))).take 16)

theorem digestBytes_length (h : Hash8) : (digestBytes h).length = 32 := rfl

theorem sha256_length (msg : List Nat) : (sha256 msg).length = 32 := rfl

theorem hexdigest_length : ∀ bytes : List Nat, (hexdigest bytes).length = 2 * bytes.length
  | [] => rfl
  | b :: bs => by
    have ih := hexdigest_length bs
    simp only [hexdigest, List.map_cons, List.flatten_cons, List.length_append,
      List.length_cons] at ih ⊢
    simp only [hexByte, List.length_cons, List.length_nil]
    omega

theorem hash_ip_length (ip : String) : (hash_ip ip).length = 16 := by
  show ((hexdigest (sha256 (utf8Encode ip))).take 16).length = 16
  rw [List.length_take, hexdigest_length, sha256_length]
  norm_num

theorem hexChars_getD_mem (k : Nat) : hexChars.getD (k % 16) '0' ∈ hexChars := by
  have hlt : k % 16 < hexChars.length := by
    have : k % 16 < 16 := Nat.mod_lt _ (by omega)
    simpa [hexChars] using this

  rw [List.getD_eq_getElem hexChars '0' hlt]
  exact List.getElem_mem hlt

theorem hash_ip_chars_hex (ip : String) : ∀ c ∈ (hash_ip ip).data, c ∈ hexChars := by
  intro c hc
  have hc2 : c ∈ hexdigest (sha256 (utf8Encode ip)) := List.mem_of_mem_take hc
  simp only [hexdigest, List.mem_flatten, List.mem_map] at hc2
  obtain ⟨l, ⟨b, _, rfl⟩, hcl⟩ := hc2
  simp only [hexByte, List.mem_cons, List.not_mem_nil, or_false] at hcl
  rcases hcl with rfl | rfl
  · exact hexChars_getD_mem _
  · exact hexChars_getD_mem _

/-! ## User-agent parsing and request model

The `user_agents` library is external; its parse result is modelled as the
record of flags and names the code reads (`ua.browser.family`, `ua.is_mobile`,
`ua.is_tablet`, `ua.is_bot`, ...). -/

/-- Parse result of the external `user_agents` library. -/
structure UAInfo where
  browser : String
  browser_version : String
  os : String
  os_version : String
  is_mobile : Bool
  is_tablet : Bool
  is_bot : Bool

/-- Output of `extract_device_info` in stats.py. -/
structure DeviceInfo where
  browser : String
  browser_version : String
  os : String
  os_version : String
  device_type : String
  is_bot : Bool

/-- `extract_device_info` from stats.py: classification of the parsed
user agent, with the conditional-expression chain
`"mobile" if ua.is_mobile else "tablet" if ua.is_tablet else "bot" if ua.is_bot else "desktop"`. -/
def extract_device_info (ua : UAInfo) : DeviceInfo :=
  { browser := ua.browser
    browser_version := ua.browser_version
    os := ua.os
    os_version := ua.os_version
    device_type :=
      if ua.is_mobile then "mobile"
      else if ua.is_tablet then "tablet"
      else if ua.is_bot then "bot"
      else "desktop"
    is_bot := ua.is_bot }

/-- The headers and connection data a request carries, as read by the code.
`none` models an absent header; `request.client` being `None` is modelled by
`clientHost = none`. -/
structure Req where
  xForwardedFor : Option String
  xRealIp : Option String
  userAgent : Option String
  clientHost : Option String
  cfViewerCountry : Option String
  xCountryCode : Option String
  cfIpcountry : Option String
  cfViewerCity : Option String
  xCity : Option String

/-- Fallback of `get_client_ip` after the x-forwarded-for branch:
`x-real-ip` if truthy, else `request.client.host`, else `"unknown"`. -/
def get_client_ip_rest (req : Req) : String :=
  match req.xRealIp with
  | some s => if s = "" then req.clientHost.getD "unknown" else s
  | none => req.clientHost.getD "unknown"

/-- `get_client_ip` from stats.py: first entry of a truthy `x-forwarded-for`
(comma-separated list), stripped; otherwise the fallback chain. -/
def get_client_ip (req : Req) : String :=
  match req.xForwardedFor with
  | some s => if s = "" then get_client_ip_rest req else ((s.splitOn ",").headD s).trim
  | none => get_client_ip_rest req

/-- First truthy value of a chain of Python `or`-ed header reads; an empty
string is falsy and skipped, and an all-falsy chain ends in `None`. -/
def firstTruthy : List (Option String) → Option String
  | [] => none
  | none :: rest => firstTruthy rest
  | some s :: rest => if s = "" then firstTruthy rest else some s

/-- Output of `get_location_from_headers` in stats.py. -/
structure LocationInfo where
  country : Option String
  city : Option String

/-- `get_location_from_headers` from stats.py. -/
def get_location_from_headers (req : Req) : LocationInfo :=
  { country := firstTruthy [req.cfViewerCountry, req.xCountryCode, req.cfIpcountry]
    city := firstTruthy [req.cfViewerCity, req.xCity] }

/-! ## Payloads, stored records, store state and responses -/

/-- `VisitData` request model of stats.py. -/
structure VisitData where
  page_url : String
  page_title : Option String
  referrer : Option String
  session_id : String
  screen_width : Option Int
  screen_height : Option Int
  time_on_page : Option Int
  scroll_depth : Option Int

/-- `EventData` request model of stats.py. -/
structure EventData where
  session_id : String
  event_type : String
  event_data : List (String × String)
  page_url : String

/-- `ContactMessage` request model of contact.py (already validated). -/
structure ContactMessage where
  name : String
  email : String
  subject : Option String
  message : String

/-- The `data` dict inserted into the `visits` table. Timestamps are modelled
as integers (ISO-8601 UTC strings compare identically). -/
structure VisitInsert where
  session_id : String
  ip_hash : String
  country : Option String
  city : Option String
  user_agent : String
  device_type : String
  browser : String
  browser_version : String
  os : String
  os_version : String
  screen_width : Option Int
  screen_height : Option Int
  page_url : String
  page_title : Option String
  referrer : Option String
  time_on_page : Option Int
  scroll_depth : Option Int
  created_at : Int

/-- The `data` dict inserted into the `events` table. -/
structure EventInsert where
  session_id : String
  event_type : String
  event_data : List (String × String)
  page_url : String
  created_at : Int

/-- The `data` dict inserted into the `contact_messages` table. -/
structure ContactInsert where
  name : String
  email : String
  subject : String
  message : String
  created_at : Int
  ip_address : String

/-- The external store's tables, as far as this service writes them. -/
structure Store where
  visits : List VisitInsert
  events : List EventInsert
  contact_messages : List ContactInsert

/-- An HTTP outcome: a 200 body, or a raised `HTTPException status detail`. -/
inductive HResp (α : Type) where
  | ok : α → HResp α
  | err : Nat → String → HResp α
deriving DecidableEq

/-- Body of the 200 responses of the two tracking endpoints. -/
structure TrackBody where
  message : String
  tracked : Bool
  error : Option String
deriving DecidableEq

/-- The environment a tracking request runs in: whether the module-level
store client is configured, whether the insert call would succeed (and the
error text it would raise otherwise), the external user-agent parser, and
the current UTC time. -/
structure Env where
  configured : Bool
  insertOk : Bool
  errMsg : String
  parseUA : String → UAInfo
  now : Int

/-- The enriched record `track_visit` prepares for insertion. -/
def visitInsertData (env : Env) (visit : VisitData) (req : Req) : VisitInsert :=
  let client_ip := get_client_ip req
  let user_agent := req.userAgent.getD "unknown"
  let device_info := extract_device_info (env.parseUA user_agent)
  let location := get_location_from_headers req
  { session_id := visit.session_id
    ip_hash := hash_ip client_ip
    country := location.country
    city := location.city
    user_agent := user_agent
    device_type := device_info.device_type
    browser := device_info.browser
    browser_version := device_info.browser_version
    os := device_info.os
    os_version := device_info.os_version
    screen_width := visit.screen_width
    screen_height := visit.screen_height
    page_url := visit.page_url
    page_title := visit.page_title
    referrer := visit.referrer
    time_on_page := visit.time_on_page
    scroll_depth := visit.scroll_depth
    created_at := env.now }

/-- `track_visit` from stats.py: 503 when unconfigured; bot visits are
answered `tracked:false` without an insert; insert errors are swallowed into
a 200 with `tracked:false`. -/
def track_visit (env : Env) (visit : VisitData) (req : Req) (st : Store) :
    HResp TrackBody × Store :=
  if env.configured = false then
    (HResp.err 503 "Analytics service is not available", st)
  else
    let device_info := extract_device_info (env.parseUA (req.userAgent.getD "unknown"))
    if device_info.is_bot then
      (HResp.ok ⟨"Bot visit logged", false, none⟩, st)
    else if env.insertOk then
      (HResp.ok ⟨"Visit tracked successfully", true, none⟩,
       { st with visits := st.visits ++ [visitInsertData env visit req] })
    else
      (HResp.ok ⟨"Visit tracking failed", false, some env.errMsg⟩, st)

/-- `track_event` from stats.py: 503 when unconfigured; insert errors are
swallowed into a 200 with `tracked:false`. -/
def track_event (env : Env) (event : EventData) (st : Store) :
    HResp TrackBody × Store :=
  if env.configured = false then
    (HResp.err 503 "Analytics service is not available", st)
  else if env.insertOk then
    (HResp.ok ⟨"Event tracked successfully", true, none⟩,
     { st with events := st.events ++
        [⟨event.session_id, event.event_type, event.event_data, event.page_url, env.now⟩] })
  else
    (HResp.ok ⟨"Event tracking failed", false, none⟩, st)

/-! ## Contact router -/

/-- Outcome of the store's insert call for contact.py: either the call raises
with an error text, or it is accepted and returns the rows of `result.data`,
modelled by their `id` values. -/
inductive InsertResult where
  | failure : String → InsertResult
  | success : List Nat → InsertResult
deriving DecidableEq

/-- The client IP as contact.py resolves it:
`request.headers.get("x-forwarded-for", request.client.host if request.client else "unknown")` —
the full header value when the header is present, with no splitting and no
`x-real-ip` fallback. -/
def contact_client_ip (req : Req) : String :=
  match req.xForwardedFor with
  | some s => s
  | none => req.clientHost.getD "unknown"

/-- The `data` dict `submit_contact` inserts; the subject falls back to
`"No subject"` when falsy and the IP is stored raw. -/
def contactInsertData (now : Int) (contact : ContactMessage) (req : Req) : ContactInsert :=
  { name := contact.name
    email := contact.email
    subject :=
      match contact.subject with
      | some s => if s = "" then "No subject" else s
      | none => "No subject"
    message := contact.message
    created_at := now
    ip_address := contact_client_ip req }

/-- Body of the 200 response of `submit_contact`. -/
structure ContactBody where
  success : Bool
  message : String
  id : Option Nat
deriving DecidableEq

/-- `submit_contact` from contact.py: 503 when unconfigured, 500 when the
insert raises, otherwise a 200 with `success:true` and
`result.data[0]["id"] if result.data else None`. -/
def submit_contact (configured : Bool) (result : InsertResult) (now : Int)
    (contact : ContactMessage) (req : Req) (st : Store) : HResp ContactBody × Store :=
  if configured = false then
    (HResp.err 503 "Contact service is not available. Please try again later.", st)
  else
    match result with
    | InsertResult.failure e =>
      (HResp.err 500 ("Failed to submit message: " ++ e), st)
    | InsertResult.success ids =>
      (HResp.ok ⟨true, "Thank you for your message! I\u0027ll get back to you soon.", ids.head?⟩,
       { st with contact_messages := st.contact_messages ++ [contactInsertData now contact req] })

/-! ## Summary aggregator

The store rows the summary queries read back; fields may be absent in a raw
row (`visit.get(...)`), hence `Option`. `created_at` is an integer timestamp;
the queries filter with `.gte("created_at", start_date)`. -/

/-- A raw row of the `visits` table as the summary queries see it. -/
structure VisitRow where
  session_id : Option String
  device_type : Option String
  page_url : Option String
  referrer : Option String
  created_at : Int

/-- The rows a summary read query returns: the store filters with
`.gte("created_at", start_date)` — a lower bound only. -/
def windowRows (visits : List VisitRow) (start_date : Int) : List VisitRow :=
  visits.filter (fun v => start_date ≤ v.created_at)

/-- One step of dict-based counting: bump the key's count, or append it with
count 1 on first encounter (Python dicts preserve insertion order). -/
def addKey (acc : List (String × Nat)) (k : String) : List (String × Nat) :=
  if acc.any (fun p => p.1 = k) then
    acc.map (fun p => if p.1 = k then (p.1, p.2 + 1) else p)
  else acc ++ [(k, 1)]

/-- Occurrence counts of a key list, in first-encounter order, as built by the
`counts[k] = counts.get(k, 0) + 1` loops. -/
def tally (keys : List String) : List (String × Nat) := keys.foldl addKey []

/-- `sorted(counts.items(), key=lambda x: x[1], reverse=True)[:10]`:
a stable descending sort by count, truncated to ten entries. -/
def topTen (counts : List (String × Nat)) : List (String × Nat) :=
  (counts.mergeSort (fun a b => decide (b.2 ≤ a.2))).take 10

/-- `visit.get("referrer") or "direct"`: absent, null and empty referrers all
count under the literal `"direct"`. -/
def pyReferrer (v : VisitRow) : String :=
  match v.referrer with
  | some s => if s = "" then "direct" else s
  | none => "direct"

/-- Body of the 200 response of `get_summary`. -/
structure SummaryBody where
  period_days : Int
  start_date : Int
  end_date : Int
  total_visits : Nat
  unique_visitors : Nat
  devices : List (String × Nat)
  top_pages : List (String × Nat)
  top_referrers : List (String × Nat)

/-- `get_summary` from stats.py over a store whose `visits` table holds
`visits`: `end_date = now`, `start_date = end_date - timedelta(days=days)`
(here in seconds), then five reads all filtered by
`created_at >= start_date`, tallied and ranked. -/
def get_summary (configured : Bool) (now : Int) (days : Int) (visits : List VisitRow) :
    HResp SummaryBody :=
  if configured = false then
    HResp.err 503 "Analytics service is not available"
  else
    let end_date := now
    let start_date := end_date - days * 86400
    let rows := windowRows visits start_date
    HResp.ok
      { period_days := days
        start_date := start_date
        end_date := end_date
        total_visits := rows.length
        unique_visitors := ((rows.filterMap (fun v => v.session_id)).dedup).length
        devices := tally (rows.map (fun v => v.device_type.getD "unknown"))
        top_pages := topTen (tally (rows.map (fun v => v.page_url.getD "unknown")))
        top_referrers := topTen (tally (rows.map pyReferrer)) }

/-- The `days` query parameter: `Query(default=30, ge=1, le=365)`. `none` is a
missing parameter; an out-of-range value is a 422 validation rejection,
modelled as `none` here. -/
def parseDays (raw : Option Int) : Option Int :=
  match raw with
  | none => some 30
  | some n => if 1 ≤ n ∧ n ≤ 365 then some n else none

/-- The summary endpoint including parameter validation. -/
def summary_endpoint (configured : Bool) (now : Int) (raw : Option Int)
    (visits : List VisitRow) : HResp SummaryBody :=
  match parseDays raw with
  | none => HResp.err 422 "days must be between 1 and 365"
  | some d => get_summary configured now d visits

/-! ## Helpers for stating and proving the claims -/

/-- First-match classification against a priority list of flags. -/
def firstMatch : List (Bool × String) → String → String
  | [], dflt => dflt
  | (b, name) :: rest, dflt => if b then name else firstMatch rest dflt

/-- Whether a response is a 200 whose body reports `tracked:false`. -/
def okNotTracked : HResp TrackBody → Bool
  | HResp.ok b => !b.tracked
  | HResp.err _ _ => false

/-- The `total_visits` of a summary response (0 on an error response). -/
def summaryTotal : HResp SummaryBody → Nat
  | HResp.ok b => b.total_visits
  | HResp.err _ _ => 0

/-- Keys in order of first encounter: an independent specification of the
insertion order of a Python dict built by repeated `counts.get(k, 0) + 1`. -/
def dedupFirst : List String → List String
  | [] => []
  | k :: ks => k :: dedupFirst (ks.filter (fun x => x ≠ k))
termination_by l => l.length
decreasing_by
  have := List.length_filter_le (fun x => x ≠ k) ks
  simp only [List.length_cons]
  omega

theorem addKey_map_fst (acc : List (String × Nat)) (k : String) :
    (addKey acc k).map Prod.fst =
      if k ∈ acc.map Prod.fst then acc.map Prod.fst else acc.map Prod.fst ++ [k] := by
  unfold addKey
  by_cases h : acc.any (fun p => p.1 = k)
  · have hmem : k ∈ acc.map Prod.fst := by
      simp only [List.any_eq_true, decide_eq_true_eq] at h
      obtain ⟨p, hp, hpk⟩ := h
      exact hpk ▸ List.mem_map_of_mem Prod.fst hp
    rw [if_pos h, if_pos hmem, List.map_map]
    apply List.map_congr_left
    intro p _
    by_cases hpk : p.1 = k <;> simp [hpk]
  · have hmem : k ∉ acc.map Prod.fst := by
      simp only [List.any_eq_true, decide_eq_true_eq] at h
      intro hk
      obtain ⟨p, hp, hpk⟩ := List.mem_map.mp hk
      exact h ⟨p, hp, hpk⟩
    rw [if_neg h, if_neg hmem]
    simp

theorem foldl_addKey_map_fst :
    ∀ (ks : List String) (acc : List (String × Nat)),
      (ks.foldl addKey acc).map Prod.fst =
        acc.map Prod.fst ++ dedupFirst (ks.filter (fun x => x ∉ acc.map Prod.fst))
  | [], acc => by simp [dedupFirst]
  | k :: ks, acc => by
    rw [List.foldl_cons, foldl_addKey_map_fst ks (addKey acc k), addKey_map_fst]
    by_cases hk : k ∈ acc.map Prod.fst
    · rw [if_pos hk]
      congr 1
      congr 1
      rw [List.filter_cons]
      simp [hk]
    · rw [if_neg hk]
      have hfilter : (k :: ks).filter (fun x => x ∉ acc.map Prod.fst) =
          k :: ks.filter (fun x => x ∉ acc.map Prod.fst) := by
        rw [List.filter_cons]
        simp [hk]
      rw [hfilter]
      rw [dedupFirst]
      have hff : ks.filter (fun x => x ∉ acc.map Prod.fst ++ [k]) =
          (ks.filter (fun x => x ∉ acc.map Prod.fst)).filter (fun x => x ≠ k) := by
        rw [List.filter_filter]
        apply List.filter_congr
        intro x _
        rw [decide_eq_decide.mpr
          (show (x ∉ List.map Prod.fst acc ++ [k]) ↔ (x ≠ k ∧ x ∉ List.map Prod.fst acc) by
            simp only [List.mem_append, List.mem_singleton, not_or]
            exact and_comm)]
        · simp
        · exact instDecidableAnd
      rw [hff]
      simp

theorem tally_map_fst (keys : List String) :
    (tally keys).map Prod.fst = dedupFirst keys := by
  have h := foldl_addKey_map_fst keys []
  simpa [tally] using h

theorem topTen_length_le (cs : List (String × Nat)) : (topTen cs).length ≤ 10 := by
  simpa [topTen] using List.length_take_le 10 _

theorem topTen_sorted (cs : List (String × Nat)) :
    (topTen cs).Pairwise (fun a b => b.2 ≤ a.2) := by
  have htrans : ∀ a b c : String × Nat,
      decide (b.2 ≤ a.2) = true → decide (c.2 ≤ b.2) = true → decide (c.2 ≤ a.2) = true := by
    intro a b c hab hbc
    simp only [decide_eq_true_eq] at *
    omega
  have htotal : ∀ a b : String × Nat, (decide (b.2 ≤ a.2) || decide (a.2 ≤ b.2)) = true := by
    intro a b
    simp only [Bool.or_eq_true, decide_eq_true_eq]
    omega
  have h := List.sorted_mergeSort htrans htotal cs
  have h2 : (cs.mergeSort (fun a b => decide (b.2 ≤ a.2))).Pairwise (fun a b => b.2 ≤ a.2) :=
    h.imp (fun hab => by simpa using hab)
  exact h2.sublist (List.take_sublist _ _)

theorem mergeSortDesc_filter_eq (cs : List (String × Nat)) (c : Nat) :
    (cs.mergeSort (fun a b => decide (b.2 ≤ a.2))).filter (fun p => p.2 = c) =
      cs.filter (fun p => p.2 = c) := by
  have htrans : ∀ a b d : String × Nat,
      decide (b.2 ≤ a.2) = true → decide (d.2 ≤ b.2) = true → decide (d.2 ≤ a.2) = true := by
    intro a b d hab hbd
    simp only [decide_eq_true_eq] at *
    omega
  have htotal : ∀ a b : String × Nat, (decide (b.2 ≤ a.2) || decide (a.2 ≤ b.2)) = true := by
    intro a b
    simp only [Bool.or_eq_true, decide_eq_true_eq]
    omega
  have hmemA : ∀ p ∈ cs.filter (fun p => p.2 = c), p.2 = c := by
    intro p hp
    exact of_decide_eq_true (List.mem_filter.mp hp).2
  have hpw : (cs.filter (fun p => p.2 = c)).Pairwise
      (fun a b : String × Nat => decide (b.2 ≤ a.2) = true) := by
    apply List.Pairwise.imp_of_mem (l := cs.filter (fun p => p.2 = c))
      (R := fun _ _ => True)
    · intro a b ha hb _
      have hac := hmemA a ha
      have hbc := hmemA b hb
      simp [hac, hbc]
    · exact List.pairwise_of_forall (fun _ _ => trivial)
  have h1 : List.Sublist (cs.filter (fun p => p.2 = c))
      (cs.mergeSort (fun a b => decide (b.2 ≤ a.2))) :=
    List.sublist_mergeSort htrans htotal hpw (List.filter_sublist cs)
  have hAf : (cs.filter (fun p => p.2 = c)).filter (fun p => p.2 = c) =
      cs.filter (fun p => p.2 = c) := by
    rw [List.filter_eq_self]
    intro p hp
    exact decide_eq_true (hmemA p hp)
  have h2 : List.Sublist (cs.filter (fun p => p.2 = c))
      ((cs.mergeSort (fun a b => decide (b.2 ≤ a.2))).filter (fun p => p.2 = c)) := by
    have := h1.filter (fun p => p.2 = c)
    rwa [hAf] at this
  have h3 : ((cs.mergeSort (fun a b => decide (b.2 ≤ a.2))).filter (fun p => p.2 = c)).length =
      (cs.filter (fun p => p.2 = c)).length :=
    ((List.mergeSort_perm cs _).filter _).length_eq
  exact (h2.eq_of_length h3.symm).symm

theorem topTen_stable (cs : List (String × Nat)) (c : Nat) :
    List.Sublist ((topTen cs).filter (fun p => p.2 = c)) (cs.filter (fun p => p.2 = c)) := by
  rw [← mergeSortDesc_filter_eq cs c]
  exact (List.take_sublist _ _).filter _

/-! ## Concrete fixtures used by witnesses and counterexamples -/

/-- A desktop user agent: no parser flag set. -/
def uaDesktop : UAInfo := ⟨"Chrome", "120.0", "Windows", "10", false, false, false⟩

/-- A bot user agent: only the bot flag set. -/
def uaBotOnly : UAInfo := ⟨"Googlebot", "2.1", "Other", "", false, false, true⟩

/-- A user agent the parser flags as both mobile and bot. -/
def uaMobileBot : UAInfo := ⟨"MobileBot", "1.0", "Android", "14", true, false, true⟩

/-- A request with no headers and no connection address. -/
def req0 : Req := ⟨none, none, none, none, none, none, none, none, none⟩

/-- A request carrying a multi-entry x-forwarded-for header. -/
def reqXff : Req :=
  ⟨some "198.51.100.9, 10.0.0.1", none, none, some "10.1.1.1", none, none, none, none, none⟩

/-- A minimal visit payload. -/
def visit0 : VisitData := ⟨"/", none, none, "sess-1234", none, none, none, none⟩

/-- A minimal event payload. -/
def event0 : EventData := ⟨"sess-1234", "click", [], "/"⟩

/-- A minimal valid contact message. -/
def msg0 : ContactMessage := ⟨"Alice", "alice@example.com", none, "Hello, this is a test."⟩

/-- The empty store. -/
def st0 : Store := ⟨[], [], []⟩

/-- A configured environment whose parser reports a bot. -/
def envBot : Env := ⟨true, true, "", fun _ => uaBotOnly, 0⟩

/-- An unconfigured environment. -/
def envUnconfigured : Env := ⟨false, true, "", fun _ => uaDesktop, 0⟩

/-- A configured environment whose insert call raises. -/
def envInsertFail : Env := ⟨true, false, "connection reset", fun _ => uaDesktop, 0⟩

/-! ## The claims -/

/-- C6: `hash_ip` is deterministic, always yields exactly 16 hex characters,
and equals the first 16 hex characters of the SHA-256 digest of the input. -/
theorem hash_ip_spec (ip : String) :
    (hash_ip ip).length = 16 ∧
    (∀ c ∈ (hash_ip ip).data, c ∈ hexChars) ∧
    hash_ip ip = String.mk ((hexdigest (sha256 (utf8Encode ip))).take 16) ∧
    (∀ ip2 : String, ip = ip2 → hash_ip ip = hash_ip ip2) :=
  ⟨hash_ip_length ip, hash_ip_chars_hex ip, rfl, fun _ h => by rw [h]⟩

theorem hash_ip_spec_witness :
    (hash_ip "203.0.113.7").length = 16 ∧ hash_ip "203.0.113.7" = hash_ip "203.0.113.7" :=
  ⟨(hash_ip_spec "203.0.113.7").1, (hash_ip_spec "203.0.113.7").2.2.2 "203.0.113.7" rfl⟩

/-- C8: `device_type` is the first match against the fixed priority list
mobile, tablet, bot, desktop; in particular a mobile flag wins over a bot
flag. -/
theorem device_type_priority (ua : UAInfo) :
    (extract_device_info ua).device_type =
      firstMatch [(ua.is_mobile, "mobile"), (ua.is_tablet, "tablet"), (ua.is_bot, "bot")]
        "desktop" ∧
    (ua.is_mobile = true → (extract_device_info ua).device_type = "mobile") ∧
    (ua.is_mobile = false → ua.is_tablet = true →
      (extract_device_info ua).device_type = "tablet") ∧
    (ua.is_mobile = false → ua.is_tablet = false → ua.is_bot = true →
      (extract_device_info ua).device_type = "bot") ∧
    (ua.is_mobile = false → ua.is_tablet = false → ua.is_bot = false →
      (extract_device_info ua).device_type = "desktop") := by
  cases hm : ua.is_mobile <;> cases ht : ua.is_tablet <;> cases hb : ua.is_bot <;>
    simp [extract_device_info, firstMatch, hm, ht, hb]

theorem device_type_priority_witness :
    (extract_device_info uaMobileBot).device_type = "mobile" ∧ uaMobileBot.is_bot = true :=
  ⟨(device_type_priority uaMobileBot).2.1 rfl, rfl⟩

/-- C10: a summary request without a `days` parameter behaves exactly as
`days = 30`, and the parameter is accepted exactly on `[1, 365]`. -/
theorem summary_days_default (configured : Bool) (now : Int) (visits : List VisitRow) :
    summary_endpoint configured now none visits =
      summary_endpoint configured now (some 30) visits ∧
    parseDays none = some 30 ∧
    (∀ n : Int, parseDays (some n) = some n ↔ 1 ≤ n ∧ n ≤ 365) := by
  refine ⟨rfl, rfl, fun n => ?_⟩
  by_cases h : 1 ≤ n ∧ n ≤ 365 <;> simp [parseDays, h]

theorem summary_days_default_witness :
    summary_endpoint true 0 none [] = summary_endpoint true 0 (some 30) [] ∧
    (parseDays (some 42) = some 42 ↔ 1 ≤ (42 : Int) ∧ (42 : Int) ≤ 365) :=
  ⟨(summary_days_default true 0 []).1, (summary_days_default true 0 []).2.2 42⟩

/-- C2: a bot-classified visit leaves the store untouched, and when the store
client is configured the response is the 200 body `tracked:false`. -/
theorem bot_visit_not_persisted (env : Env) (visit : VisitData) (req : Req) (st : Store)
    (hbot : (extract_device_info (env.parseUA (req.userAgent.getD "unknown"))).is_bot = true) :
    (track_visit env visit req st).2 = st ∧
    (env.configured = true →
      (track_visit env visit req st).1 = HResp.ok ⟨"Bot visit logged", false, none⟩) := by
  cases hc : env.configured <;> simp [track_visit, hc, hbot]

theorem bot_visit_not_persisted_witness :
    (track_visit envBot visit0 req0 st0).2 = st0 ∧
    (track_visit envBot visit0 req0 st0).1 = HResp.ok ⟨"Bot visit logged", false, none⟩ :=
  ⟨(bot_visit_not_persisted envBot visit0 req0 st0 rfl).1,
   (bot_visit_not_persisted envBot visit0 req0 st0 rfl).2 rfl⟩

/-- C3: with an unconfigured store client both tracking endpoints raise 503
with the store untouched; with a configured client whose insert raises, both
return a 200 body with `tracked:false`, never an error status. -/
theorem tracking_failure_modes (env : Env) (visit : VisitData) (event : EventData)
    (req : Req) (st : Store) :
    (env.configured = false →
      track_visit env visit req st = (HResp.err 503 "Analytics service is not available", st) ∧
      track_event env event st = (HResp.err 503 "Analytics service is not available", st)) ∧
    (env.configured = true → env.insertOk = false →
      okNotTracked (track_visit env visit req st).1 = true ∧
      okNotTracked (track_event env event st).1 = true) := by
  cases hc : env.configured
  · simp [track_visit, track_event, hc]
  · cases hio : env.insertOk
    · cases hbot : (extract_device_info (env.parseUA (req.userAgent.getD "unknown"))).is_bot <;>
        simp [track_visit, track_event, okNotTracked, hc, hio, hbot]
    · simp [hc, hio]

theorem tracking_failure_modes_witness :
    track_visit envUnconfigured visit0 req0 st0 =
      (HResp.err 503 "Analytics service is not available", st0) ∧
    okNotTracked (track_visit envInsertFail visit0 req0 st0).1 = true ∧
    okNotTracked (track_event envInsertFail event0 st0).1 = true :=
  ⟨((tracking_failure_modes envUnconfigured visit0 event0 req0 st0).1 rfl).1,
   ((tracking_failure_modes envInsertFail visit0 event0 req0 st0).2 rfl rfl).1,
   ((tracking_failure_modes envInsertFail visit0 event0 req0 st0).2 rfl rfl).2⟩

/-- C4 counterexample: an insert the store accepts while returning no rows
(`result.data` empty) yields the 200 body `success:true` with a null id —
the record is persisted, yet the claimed non-null id is absent. -/
theorem contact_null_id_counterexample :
    (submit_contact true (InsertResult.success []) 0 msg0 req0 st0).1 =
      HResp.ok ⟨true, "Thank you for your message! I\u0027ll get back to you soon.", none⟩ ∧
    (submit_contact true (InsertResult.success []) 0 msg0 req0 st0).2.contact_messages.length =
      st0.contact_messages.length + 1 :=
  ⟨rfl, rfl⟩

/-- C4 amended: submission yields 503 when unconfigured, 500 when the insert
raises, and otherwise a 200 with `success:true` and the first returned row id
(non-null whenever the store returns at least one row); no 200 response ever
carries `success:false`. -/
theorem submit_contact_outcomes (configured : Bool) (result : InsertResult) (now : Int)
    (contact : ContactMessage) (req : Req) (st : Store) :
    (configured = false →
      (submit_contact configured result now contact req st).1 =
        HResp.err 503 "Contact service is not available. Please try again later.") ∧
    (∀ e, configured = true → result = InsertResult.failure e →
      (submit_contact configured result now contact req st).1 =
        HResp.err 500 ("Failed to submit message: " ++ e)) ∧
    (∀ ids, configured = true → result = InsertResult.success ids →
      (submit_contact configured result now contact req st).1 =
        HResp.ok ⟨true, "Thank you for your message! I\u0027ll get back to you soon.",
          ids.head?⟩ ∧
      (ids ≠ [] → ids.head? ≠ none)) ∧
    (∀ b, (submit_contact configured result now contact req st).1 = HResp.ok b →
      b.success = true) := by
  refine ⟨?_, ?_, ?_, ?_⟩
  · intro hc
    simp [submit_contact, hc]
  · intro e hc hr
    simp [submit_contact, hc, hr]
  · intro ids hc hr
    refine ⟨by simp [submit_contact, hc, hr], ?_⟩
    intro hne
    cases ids with
    | nil => exact absurd rfl hne
    | cons a as => simp
  · intro b hb
    cases hc : configured
    · rw [hc] at hb
      simp [submit_contact] at hb
    · rw [hc] at hb
      cases result with
      | failure e => simp [submit_contact] at hb
      | success ids =>
        simp [submit_contact] at hb
        rw [← hb]

theorem submit_contact_outcomes_witness :
    (submit_contact true (InsertResult.success [7]) 0 msg0 req0 st0).1 =
      HResp.ok ⟨true, "Thank you for your message! I\u0027ll get back to you soon.",
        some 7⟩ := by
  have h :=
    ((submit_contact_outcomes true (InsertResult.success [7]) 0 msg0 req0 st0).2.2.1 [7]
      rfl rfl).1
  simpa using h

/-- C9: an accepted contact submission appends a record whose `ip_address` is
the raw client IP — the full x-forwarded-for header value when present, else
the connection address, else "unknown" — and never a 16-character truncated
digest of it. -/
theorem contact_stores_raw_ip (ids : List Nat) (now : Int) (contact : ContactMessage)
    (req : Req) (st : Store) :
    (submit_contact true (InsertResult.success ids) now contact req st).2.contact_messages =
      st.contact_messages ++ [contactInsertData now contact req] ∧
    (contactInsertData now contact req).ip_address = contact_client_ip req ∧
    (∀ s, req.xForwardedFor = some s → contact_client_ip req = s) ∧
    (req.xForwardedFor = none → contact_client_ip req = req.clientHost.getD "unknown") ∧
    ((contact_client_ip req).length ≠ 16 →
      (contactInsertData now contact req).ip_address ≠ hash_ip (contact_client_ip req)) := by
  refine ⟨by simp [submit_contact], rfl, ?_, ?_, ?_⟩
  · intro s hs
    simp [contact_client_ip, hs]
  · intro hs
    simp [contact_client_ip, hs]
  · intro hlen heq
    have hip : (contactInsertData now contact req).ip_address = contact_client_ip req := rfl
    rw [hip] at heq
    exact hlen (by rw [heq, hash_ip_length])

theorem contact_stores_raw_ip_witness :
    (contactInsertData 0 msg0 reqXff).ip_address = "198.51.100.9, 10.0.0.1" ∧
    (contactInsertData 0 msg0 reqXff).ip_address ≠ hash_ip (contact_client_ip reqXff) := by
  have h := contact_stores_raw_ip [7] 0 msg0 reqXff st0
  refine ⟨?_, h.2.2.2.2 (by decide)⟩
  rw [h.2.1]
  exact h.2.2.1 "198.51.100.9, 10.0.0.1" rfl

/-- C7: in every successfully computed summary, `unique_visitors` (distinct
session ids) is at most `total_visits` (the row count). -/
theorem unique_le_total (configured : Bool) (now days : Int) (visits : List VisitRow)
    (body : SummaryBody)
    (h : get_summary configured now days visits = HResp.ok body) :
    body.unique_visitors ≤ body.total_visits := by
  cases hc : configured
  · rw [hc] at h
    simp [get_summary] at h
  · rw [hc] at h
    simp only [get_summary, Bool.true_eq_false, if_false, reduceIte, HResp.ok.injEq] at h
    rw [← h]
    calc (((windowRows visits (now - days * 86400)).filterMap
            (fun v => v.session_id)).dedup).length
        ≤ ((windowRows visits (now - days * 86400)).filterMap
            (fun v => v.session_id)).length := (List.dedup_sublist _).length_le
      _ ≤ (windowRows visits (now - days * 86400)).length := List.length_filterMap_le _ _

/-- A visit row stamped exactly at `now = 100`. -/
def rowAtNow : VisitRow := ⟨some "s1", none, none, none, 100⟩

/-- C1 counterexample: with `now = 100` and `days = 1` the claimed window is
`[100 - 86400, 100)`; `rowAtNow` is stamped exactly `end_date = 100`, outside
that half-open window, yet it is counted in `total_visits`, because every
read query applies only the lower bound `created_at >= start_date`. -/
theorem summary_window_counterexample :
    summaryTotal (get_summary true 100 1 [rowAtNow]) = 1 ∧
    ¬ rowAtNow.created_at < 100 ∧
    (100 : Int) - 1 * 86400 ≤ rowAtNow.created_at := by
  refine ⟨?_, by decide, by decide⟩
  norm_num [get_summary, summaryTotal, windowRows, rowAtNow]

/-- C1 amended: the read queries are restricted by the lower bound only —
the summary is unchanged when rows with `created_at < start_date` are
dropped, so no such row contributes to any field; rows at or after
`end_date` are not excluded. -/
theorem summary_window_lower_bound (configured : Bool) (now days : Int)
    (visits : List VisitRow) :
    get_summary configured now days visits =
      get_summary configured now days
        (visits.filter (fun v => now - days * 86400 ≤ v.created_at)) := by
  cases configured
  · rfl
  · have hw : windowRows
        (visits.filter (fun v => decide (now - days * 86400 ≤ v.created_at)))
        (now - days * 86400) = windowRows visits (now - days * 86400) := by
      simp only [windowRows, List.filter_filter]
      apply List.filter_congr
      intro v _
      simp
    simp only [get_summary, hw]

/-- C5: in every successfully computed summary, `top_pages` and
`top_referrers` hold at most ten entries, sorted non-increasingly by count;
entries of equal count stay in the tally's order, and the tally lists keys in
order of first encounter over the row list; a missing referrer is counted
under the literal "direct". -/
theorem summary_ranking_spec (now days : Int) (visits : List VisitRow) (body : SummaryBody)
    (h : get_summary true now days visits = HResp.ok body) :
    body.top_pages.length ≤ 10 ∧
    body.top_referrers.length ≤ 10 ∧
    body.top_pages.Pairwise (fun a b => b.2 ≤ a.2) ∧
    body.top_referrers.Pairwise (fun a b => b.2 ≤ a.2) ∧
    (∀ c : Nat, List.Sublist
      (body.top_pages.filter (fun p => p.2 = c))
      ((tally ((windowRows visits (now - days * 86400)).map
        (fun v => v.page_url.getD "unknown"))).filter (fun p => p.2 = c))) ∧
    (∀ c : Nat, List.Sublist
      (body.top_referrers.filter (fun p => p.2 = c))
      ((tally ((windowRows visits (now - days * 86400)).map pyReferrer)).filter
        (fun p => p.2 = c))) ∧
    (tally ((windowRows visits (now - days * 86400)).map
      (fun v => v.page_url.getD "unknown"))).map Prod.fst =
      dedupFirst ((windowRows visits (now - days * 86400)).map
        (fun v => v.page_url.getD "unknown")) ∧
    (tally ((windowRows visits (now - days * 86400)).map pyReferrer)).map Prod.fst =
      dedupFirst ((windowRows visits (now - days * 86400)).map pyReferrer) ∧
    (∀ v : VisitRow, v.referrer = none → pyReferrer v = "direct") := by
  simp only [get_summary, Bool.true_eq_false, if_false, reduceIte, HResp.ok.injEq] at h
  rw [← h]
  refine ⟨topTen_length_le _, topTen_length_le _, topTen_sorted _, topTen_sorted _,
    fun c => topTen_stable _ c, fun c => topTen_stable _ c,
    tally_map_fst _, tally_map_fst _, ?_⟩
  intro v hv
  simp [pyReferrer, hv]

/-- The summary body of one day over an empty store. -/
def sBody0 : SummaryBody := ⟨1, -86400, 0, 0, 0, [], [], []⟩

theorem get_summary_empty : get_summary true 0 1 [] = HResp.ok sBody0 := by
  simp [get_summary, windowRows, tally, topTen, sBody0]

theorem summary_ranking_spec_witness :
    sBody0.top_pages.length ≤ 10 ∧ pyReferrer rowAtNow = "direct" := by
  have h := summary_ranking_spec 0 1 [] sBody0 get_summary_empty
  exact ⟨h.1, h.2.2.2.2.2.2.2.2 rowAtNow rfl⟩

theorem unique_le_total_witness : sBody0.unique_visitors ≤ sBody0.total_visits :=
  unique_le_total true 0 1 [] sBody0 get_summary_empty

end Portfolio
